import Mathlib

/-!
Verification of the synthetic-analytics generator (`db.py`), the query
execution wrapper (`agent.py`) and the content-update endpoint
(`hospital_website/app.py`) of the seoAgent repository.

Randomness is modelled by explicit oracle inputs:
* `random.randint(a, b)` is embedded as `randint a b raw = a + raw % (b - a + 1)`,
  so the embedded value ranges over exactly the support `[a, b]`;
* `random.random()` rolls are rational oracle inputs;
* `np.random.normal(mu, sigma)` draws are oracle functions `ℚ → ℚ → ℚ`
  applied to the mean and standard deviation the code passes, so that the
  parameters requested at each call site are part of the model (a normal
  variate's support is all of ℝ, so the draw value itself is unconstrained).
Python's `int()` conversion truncates toward zero and is embedded as `pyInt`.
-/

/-- Python `int(x)` for a real-valued `x`: truncation toward zero. -/
def pyInt (x : ℚ) : ℤ := if 0 ≤ x then ⌊x⌋ else ⌈x⌉

/-- Python `random.randint(lo, hi)` produces a value in `[lo, hi]`; the oracle
value `raw` selects which. -/
def randint (lo hi raw : ℕ) : ℕ := lo + raw % (hi + 1 - lo)

theorem randint_le {lo hi raw : ℕ} (h : lo ≤ hi) : randint lo hi raw ≤ hi := by
  unfold randint
  have h1 : raw % (hi + 1 - lo) < hi + 1 - lo :=
    Nat.mod_lt _ (by omega)
  omega

theorem le_randint (lo hi raw : ℕ) : lo ≤ randint lo hi raw :=
  Nat.le_add_right _ _

-- --- CONFIGURATION (db.py) ---

def NUM_DAYS : ℕ := 90

def HOSPITAL_HOSTNAME : String := "www.apollohospitals.com"

def PRIMARY_CITY : String := "Chennai"

def PRIMARY_REGION : String := "Tamil Nadu"

def PRIMARY_COUNTRY_CODE : String := "IN"

def PRIMARY_COUNTRY_NAME : String := "India"

/-- Catalog `GSC_QUERIES`: search query → landing page. -/
def GSC_QUERIES : List (String × String) :=
  [("knee pain", "/blog/knee-pain-causes-and-treatments/"),
   ("best orthopedic surgeon in chennai", "/chennai/centres-of-excellence/orthopedics/"),
   ("hip replacement options", "/chennai/centres-of-excellence/orthopedics/hip-replacement"),
   ("sports injury clinic chennai", "/chennai/centres-of-excellence/orthopedics/sports-medicine"),
   ("shoulder surgery recovery time", "/blog/shoulder-surgery-recovery-guide/"),
   ("apollo chennai appointment", "/chennai/patients/appointments"),
   ("best cardiologist in chennai", "/chennai/centres-of-excellence/cardiology/"),
   ("heart attack symptoms", "/blog/understanding-heart-attack-symptoms/"),
   ("maternity packages chennai", "/chennai/centres-of-excellence/maternity/packages")]

structure VideoMeta where
  title : String
  duration_sec : ℕ
  avg_view_sec : ℕ
  deriving DecidableEq, Repr

/-- Catalog `YT_VIDEOS`: video id → metadata. -/
def YT_VIDEOS : List (String × VideoMeta) :=
  [("yt_apollo_ortho_team_01",
      ⟨"Meet Our Orthopedic Team - Apollo Chennai", 180, 30⟩),
   ("yt_apollo_cardio_proc_02",
      ⟨"What to Expect During an Angioplasty", 240, 90⟩),
   ("yt_apollo_maternity_tour_03",
      ⟨"Virtual Tour of Apollo Maternity Ward Chennai", 210, 120⟩)]

/-- Catalog `PAGE_MAP`: page path → page title. -/
def PAGE_MAP : List (String × String) :=
  [("/", "Homepage | Apollo Hospitals"),
   ("/chennai/centres-of-excellence/orthopedics/", "Best Orthopedic Hospital in Chennai | Apollo"),
   ("/blog/knee-pain-causes-and-treatments/", "Knee Pain Causes & Treatments"),
   ("/doctors/chennai/dr-aravind-kumar", "Dr. Aravind Kumar - Orthopedic Surgeon"),
   ("/chennai/patients/appointments", "Book an Appointment | Apollo Chennai"),
   ("/chennai/centres-of-excellence/cardiology/", "Best Cardiology Hospital in Chennai | Apollo"),
   ("/blog/understanding-heart-attack-symptoms/", "Understanding Heart Attack Symptoms"),
   ("/chennai/centres-of-excellence/maternity/packages", "Maternity Packages at Apollo Chennai")]

/-- Python's substring test `"best" in query`. -/
def containsBest (query : String) : Bool :=
  decide (List.IsInfix "best".toList query.toList)

-- --- 1. GSC PERFORMANCE DATA (db.py lines 55-89) ---

/-- The random draws one GSC row consumes: the `randint` oracle for
impressions and the two `np.random.normal` oracles (each receives the
mean and standard deviation the code passes and answers with the draw). -/
structure GscDraw where
  impRaw : ℕ
  ctrDraw : ℚ → ℚ → ℚ
  posDraw : ℚ → ℚ → ℚ

structure GscRow where
  partition_day : ℕ
  query : String
  page_url : String
  country : String
  device : String
  clicks : ℤ
  impressions : ℕ
  sum_position : ℤ
  deriving DecidableEq, Repr

/-- Impressions: `random.randint(50, 8000)` unless the query contains
"best", then `random.randint(500, 10000)`. -/
def gscImpressions (query : String) (raw : ℕ) : ℕ :=
  if containsBest query then randint 500 10000 raw else randint 50 8000 raw

/-- The CTR value the code draws for a query: `np.random.normal(0.005, 0.001)`
for the literal query "shoulder surgery recovery time", else
`np.random.normal(0.08, 0.03)`. -/
def gscCtr (query : String) (d : GscDraw) : ℚ :=
  if query = "shoulder surgery recovery time" then d.ctrDraw (5/1000) (1/1000)
  else d.ctrDraw (8/100) (3/100)

/-- The average-position value the code draws: `np.random.normal(3.5, 1.5)`
for "best"-containing queries, else `np.random.normal(8, 4)`. -/
def gscAvgPosition (query : String) (d : GscDraw) : ℚ :=
  if containsBest query then d.posDraw (35/10) (15/10) else d.posDraw 8 4

/-- One GSC row (the body of the inner loop of db.py lines 62-85). -/
def mkGscRow (day : ℕ) (query page device : String) (d : GscDraw) : GscRow :=
  let impressions := gscImpressions query d.impRaw
  let ctr := gscCtr query d
  let clicks := max 0 (pyInt ((impressions : ℚ) * ctr))
  let avg_position := gscAvgPosition query d
  let sum_position := pyInt (avg_position * (impressions : ℚ))
  { partition_day := day
    query := query
    page_url := "https://" ++ HOSPITAL_HOSTNAME ++ page
    country := PRIMARY_COUNTRY_CODE
    device := device
    clicks := clicks
    impressions := impressions
    sum_position := sum_position }

/-- Table `gsc_data`: one row per (day, query, device). The oracle `draw`
supplies the random draws each row consumes. -/
def gsc_data (numDays : ℕ) (draw : ℕ → String → String → GscDraw) : List GscRow :=
  (List.range numDays).flatMap fun day =>
    GSC_QUERIES.flatMap fun qp =>
      ["MOBILE", "DESKTOP"].map fun device =>
        mkGscRow day qp.1 qp.2 device (draw day qp.1 device)

-- --- 2. YOUTUBE ANALYTICS DATA (db.py lines 91-121) ---

/-- The random draws one YouTube row consumes. -/
structure YtDraw where
  viewsRaw : ℕ
  ageRaw : ℕ
  genderRaw : ℕ
  deviceRaw : ℕ
  trafficRaw : ℕ
  likesDraw : ℚ → ℚ → ℚ
  sharesDraw : ℚ → ℚ → ℚ
  commentsDraw : ℚ → ℚ → ℚ
  subsDraw : ℚ → ℚ → ℚ

structure YtRow where
  partition_day : ℕ
  external_video_id : String
  video_title : String
  country_code : String
  age_group : String
  gender : String
  device_type : String
  traffic_source_type : String
  views : ℕ
  watch_time_msec : ℕ
  potential_watch_time_msec : ℕ
  likes_added : ℤ
  shares : ℤ
  comments_added : ℤ
  subscribers_gained : ℤ
  deriving DecidableEq, Repr

/-- Python `random.choice` over a fixed list, the oracle index selecting the element. -/
def pyChoice (xs : List String) (raw : ℕ) : String :=
  xs.getD (raw % xs.length) ""

/-- One YouTube row (the body of the loop of db.py lines 96-117). -/
def mkYtRow (day : ℕ) (videoId : String) (meta : VideoMeta) (d : YtDraw) : YtRow :=
  let views := randint 50 1500 d.viewsRaw
  { partition_day := day
    external_video_id := videoId
    video_title := meta.title
    country_code := PRIMARY_COUNTRY_CODE
    age_group := pyChoice ["25-34", "35-44", "45-54", "55-64"] d.ageRaw
    gender := pyChoice ["MALE", "FEMALE"] d.genderRaw
    device_type := pyChoice ["MOBILE", "DESKTOP", "TABLET"] d.deviceRaw
    traffic_source_type := pyChoice ["YT_SEARCH", "YT_RELATED", "SUBSCRIBER", "EXT_URL"] d.trafficRaw
    views := views
    watch_time_msec := views * meta.avg_view_sec * 1000
    potential_watch_time_msec := views * meta.duration_sec * 1000
    likes_added := pyInt ((views : ℚ) * d.likesDraw (2/100) (5/1000))
    shares := pyInt ((views : ℚ) * d.sharesDraw (5/1000) (2/1000))
    comments_added := pyInt ((views : ℚ) * d.commentsDraw (2/1000) (1/1000))
    subscribers_gained := pyInt ((views : ℚ) * d.subsDraw (1/1000) (5/10000)) }

/-- Table `yt_data`: one row per (day, video). -/
def yt_data (numDays : ℕ) (draw : ℕ → String → YtDraw) : List YtRow :=
  (List.range numDays).flatMap fun day =>
    YT_VIDEOS.map fun vm => mkYtRow day vm.1 vm.2 (draw day vm.1)

-- --- 3. GA SESSIONS DATA (db.py lines 123-209) ---

inductive HitType where
  | PAGE
  | EVENT
  deriving DecidableEq, Repr

structure PageInfo where
  page_path : String
  page_title : String
  hostname : String
  deriving DecidableEq, Repr

structure EventInfo where
  event_category : String
  event_action : String
  event_label : String
  deriving DecidableEq, Repr

/-- One hit of a GA session; `hit_time` is in absolute seconds. -/
structure Hit where
  hit_number : ℕ
  hit_time : ℕ
  type : HitType
  page : Option PageInfo
  event_info : Option EventInfo
  deriving DecidableEq, Repr

structure Geo where
  country : String
  region : String
  city : String
  deriving DecidableEq, Repr

structure TrafficSource where
  source : String
  medium : String
  campaign : String
  deriving DecidableEq, Repr

structure Totals where
  pageviews : ℕ
  time_on_site_seconds : ℕ
  bounces : ℕ
  deriving DecidableEq, Repr

structure GaSession where
  partition_day : ℕ
  session_id : String
  user_id : String
  session_start_time : ℕ
  device_category : String
  browser : String
  operating_system : String
  geo : Geo
  traffic_source : TrafficSource
  totals : Totals
  hits : List Hit
  deriving DecidableEq, Repr

/-- The random draws one GA session consumes. -/
structure SessionDraw where
  startRaw : ℕ
  sessionId : String
  userId : String
  trafficRoll : ℚ
  referralRaw : ℕ
  firstPageRaw : ℕ
  bounceRoll : ℚ
  nAddRaw : ℕ
  deltaRaw : ℕ → ℕ
  pageRaw : ℕ → ℕ
  convRoll : ℚ
  convDeltaRaw : ℕ
  tosRaw : ℕ
  deviceRaw : ℕ
  browserRaw : ℕ
  osRaw : ℕ
  cityRaw : ℕ

/-- Python `random.choice(list(PAGE_MAP.keys()))` plus the title lookup. -/
def pickPage (raw : ℕ) : String × String :=
  PAGE_MAP.getD (raw % PAGE_MAP.length) ("", "")

/-- Traffic source/medium selection (db.py lines 136-144). -/
def trafficFor (roll : ℚ) (referralRaw : ℕ) : String × String :=
  if roll < 6/10 then ("google", "organic")
  else if roll < 8/10 then ("(direct)", "(none)")
  else if roll < 9/10 then (pyChoice ["youtube.com", "facebook.com"] referralRaw, "referral")
  else ("google", "cpc")

/-- A PAGE hit record. -/
def mkPageHit (n t : ℕ) (pp : String × String) : Hit :=
  { hit_number := n
    hit_time := t
    type := HitType.PAGE
    page := some ⟨pp.1, pp.2, HOSPITAL_HOSTNAME⟩
    event_info := none }

/-- The loop of db.py lines 164-175: append `r` additional PAGE hits; hit
`i + 2` lands `randint 30 120` seconds after the previous one. Returns the
appended hits together with the final `last_hit_time`. -/
def morePageHits (d : SessionDraw) : ℕ → ℕ → ℕ → List Hit × ℕ
  | 0, _, lastTime => ([], lastTime)
  | r + 1, i, lastTime =>
    let t := lastTime + randint 30 120 (d.deltaRaw i)
    let rest := morePageHits d r (i + 1) t
    (mkPageHit (i + 2) t (pickPage (d.pageRaw i)) :: rest.1, rest.2)

/-- The conversion EVENT hit (db.py lines 181-184). -/
def mkEventHit (n t : ℕ) : Hit :=
  { hit_number := n
    hit_time := t
    type := HitType.EVENT
    page := none
    event_info := some ⟨"Conversion", "Request Appointment", "Ortho Page"⟩ }

/-- One GA session (the body of the per-session loop, db.py lines 130-204). -/
def mkSession (day : ℕ) (d : SessionDraw) : GaSession :=
  let session_start_time := day * 86400 + randint 0 86399 d.startRaw
  let sm := trafficFor d.trafficRoll d.referralRaw
  let firstHit := mkPageHit 1 session_start_time (pickPage d.firstPageRaw)
  let is_bounce := d.bounceRoll < 65/100
  let engaged :=
    let n := randint 1 4 d.nAddRaw
    let more := morePageHits d n 0 session_start_time
    let baseHits := firstHit :: more.1
    if d.convRoll < 2/10 then
      let t := more.2 + randint 10 30 d.convDeltaRaw
      (baseHits ++ [mkEventHit (baseHits.length + 1) t], t)
    else (baseHits, more.2)
  let hits := if is_bounce then [firstHit] else engaged.1
  let time_on_site :=
    if is_bounce then randint 5 45 d.tosRaw else engaged.2 - session_start_time
  { partition_day := day
    session_id := d.sessionId
    user_id := d.userId
    session_start_time := session_start_time
    device_category := pyChoice ["mobile", "desktop", "tablet"] d.deviceRaw
    browser := pyChoice ["Chrome", "Safari", "Firefox", "Edge"] d.browserRaw
    operating_system := pyChoice ["Android", "iOS", "Windows", "MacOS"] d.osRaw
    geo := ⟨PRIMARY_COUNTRY_NAME, PRIMARY_REGION,
            pyChoice [PRIMARY_CITY, "Coimbatore", "Madurai"] d.cityRaw⟩
    traffic_source := ⟨sm.1, sm.2, "(not set)"⟩
    totals := { pageviews := (hits.filter fun h => h.type = HitType.PAGE).length
                time_on_site_seconds := time_on_site
                bounces := if is_bounce then 1 else 0 }
    hits := hits }

/-- Table `ga_sessions_data`: for each day, `randint 200 1000` sessions, each an
independent draw. `nsRaw` is the per-day session-count oracle and `draw`
the per-session draw oracle. -/
def ga_sessions_data (numDays : ℕ) (nsRaw : ℕ → ℕ) (draw : ℕ → ℕ → SessionDraw) :
    List GaSession :=
  (List.range numDays).flatMap fun day =>
    (List.range (randint 200 1000 (nsRaw day))).map fun s => mkSession day (draw day s)

-- --- agent.py: execute_bq_query (lines 22-32) ---

/-- A result row: column name → value. -/
abbrev BqRow : Type := List (String × String)

/-- The observable outcome of `execute_bq_query`: a list of rows, the
structured dictionary `{error: message}` returned from the `except`
branch, or an exception propagating past the function's boundary. -/
inductive BqOutcome where
  | rows (rs : List BqRow)
  | errorDict (message : String)
  | raised (message : String)
  deriving DecidableEq, Repr

/-- The BigQuery client: `none` models `bq_client = None` (initialization
failed); `some run` models a live client whose `query(...).result()` either
yields rows or throws with a message. -/
def BqClient : Type := Option (String → Except String (List BqRow))

/-- Function `execute_bq_query` (agent.py lines 22-32): with no client it raises
`Exception("BigQuery client is not available.")` outside any try block;
with a client, a query failure is caught and returned as `{error: str(e)}`. -/
def execute_bq_query (client : BqClient) (query : String) : BqOutcome :=
  match client with
  | none => BqOutcome.raised "BigQuery client is not available."
  | some run =>
    match run query with
    | Except.ok rs => BqOutcome.rows rs
    | Except.error e => BqOutcome.errorDict e

-- --- hospital_website/app.py: update_metadata (lines 31-50) ---

/-- The four stored text fields (`WEBSITE_METADATA`). -/
structure Metadata where
  title : String
  description : String
  page_h1 : String
  page_paragraph : String
  deriving DecidableEq, Repr

/-- The initial `WEBSITE_METADATA` dictionary. -/
def WEBSITE_METADATA : Metadata :=
  { title := "Default Title | Apollo Hospitals"
    description := "This is the default description."
    page_h1 := "Best Orthopedics Hospital in Chennai"
    page_paragraph := "The Department of Orthopaedics at Apollo Hospitals, Chennai is renowned for delivering advanced Orthopaedics care." }

/-- The parsed JSON body: `none` when `request.get_json()` yields no JSON,
otherwise the key/value pairs of the JSON object (keys unique). -/
def JsonBody : Type := Option (List (String × String))

/-- Python `data.get(key, default)`. -/
def dictGet (data : List (String × String)) (key default : String) : String :=
  match data.lookup key with
  | some v => v
  | none => default

inductive ApiResponse where
  | badRequest (message : String)
  | success (message : String)
  deriving DecidableEq, Repr

/-- Endpoint `update_metadata` (app.py lines 31-50): an empty dict is falsy in
Python, so both a missing body and the empty JSON object take the
400 branch, leaving the store untouched; otherwise each of the four keys
present in the body replaces the stored value and each absent key keeps it. -/
def update_metadata (store : Metadata) (data : JsonBody) : Metadata × ApiResponse :=
  match data with
  | none => (store, ApiResponse.badRequest "Missing JSON payload")
  | some d =>
    if d = [] then (store, ApiResponse.badRequest "Missing JSON payload")
    else
      ({ title := dictGet d "title" store.title
         description := dictGet d "description" store.description
         page_h1 := dictGet d "page_h1" store.page_h1
         page_paragraph := dictGet d "page_paragraph" store.page_paragraph },
       ApiResponse.success "Website content updated.")

-- --- WITNESS INPUTS ---

/-- A concrete all-zero GSC draw. -/
def wGscDraw : GscDraw :=
  { impRaw := 0, ctrDraw := fun _ _ => 0, posDraw := fun _ _ => 0 }

/-- The first GSC row generated under `wGscDraw`. -/
def wGscRow : GscRow :=
  mkGscRow 0 "knee pain" "/blog/knee-pain-causes-and-treatments/" "MOBILE" wGscDraw

/-- A GSC draw whose CTR oracle answers 2 (a value in the support of every
normal distribution), driving clicks above impressions. -/
def hiCtrDraw : GscDraw :=
  { impRaw := 0, ctrDraw := fun _ _ => 2, posDraw := fun _ _ => 0 }

/-- A GSC draw whose average-position oracle answers 27/500, so that for a
50-impression row the product is 2.7, separating truncation from rounding. -/
def fracPosDraw : GscDraw :=
  { impRaw := 0, ctrDraw := fun _ _ => 0, posDraw := fun _ _ => 27/500 }

/-- The first GSC row generated under `fracPosDraw`. -/
def fracPosRow : GscRow :=
  mkGscRow 0 "knee pain" "/blog/knee-pain-causes-and-treatments/" "MOBILE" fracPosDraw

/-- A concrete all-zero YouTube draw. -/
def wYtDraw : YtDraw :=
  { viewsRaw := 0, ageRaw := 0, genderRaw := 0, deviceRaw := 0, trafficRaw := 0
    likesDraw := fun _ _ => 0, sharesDraw := fun _ _ => 0
    commentsDraw := fun _ _ => 0, subsDraw := fun _ _ => 0 }

/-- A concrete all-zero session draw (its bounce roll 0 < 0.65 selects the
bounce branch). -/
def wSessionDraw : SessionDraw :=
  { startRaw := 0, sessionId := "sid", userId := "uid", trafficRoll := 0
    referralRaw := 0, firstPageRaw := 0, bounceRoll := 0, nAddRaw := 0
    deltaRaw := fun _ => 0, pageRaw := fun _ => 0, convRoll := 0
    convDeltaRaw := 0, tosRaw := 0, deviceRaw := 0, browserRaw := 0
    osRaw := 0, cityRaw := 0 }

/-- A concrete session draw taking the engaged (non-bounce, converting)
branch: its bounce roll 1 fails the `< 0.65` test. -/
def wEngagedDraw : SessionDraw :=
  { wSessionDraw with bounceRoll := 1 }

-- --- HELPER LEMMAS ---

theorem max_pyInt_eq_max_floor (x : ℚ) : max 0 (pyInt x) = max 0 ⌊x⌋ := by
  unfold pyInt
  split
  · rfl
  · rename_i h
    have hx : x ≤ 0 := le_of_not_le h
    have hc : (⌈x⌉ : ℤ) ≤ 0 := Int.ceil_le.mpr (by exact_mod_cast hx)
    rw [max_eq_left hc, max_eq_left (Int.floor_nonpos hx)]

theorem mem_gsc_data {numDays : ℕ} {draw : ℕ → String → String → GscDraw}
    {row : GscRow} (h : row ∈ gsc_data numDays draw) :
    ∃ day qp device, day < numDays ∧ qp ∈ GSC_QUERIES ∧
      row = mkGscRow day qp.1 qp.2 device (draw day qp.1 device) := by
  simp only [gsc_data, List.mem_flatMap, List.mem_map, List.mem_range] at h
  obtain ⟨day, hday, qp, hqp, device, -, rfl⟩ := h
  exact ⟨day, qp, device, hday, hqp, rfl⟩

theorem first_mem_gsc_data (d : GscDraw) :
    mkGscRow 0 "knee pain" "/blog/knee-pain-causes-and-treatments/" "MOBILE" d
      ∈ gsc_data 1 fun _ _ _ => d := by
  refine List.mem_flatMap.mpr ⟨0, by simp, ?_⟩
  refine List.mem_flatMap.mpr
    ⟨("knee pain", "/blog/knee-pain-causes-and-treatments/"), by simp [GSC_QUERIES], ?_⟩
  exact List.mem_map.mpr ⟨"MOBILE", by simp, rfl⟩

-- --- CLAIM C5 ---

/-- C5: every generated GSC row is `mkGscRow` of the generating draw
`draw day query device`, and its clicks satisfy
`clicks = max 0 ⌊impressions * ctr⌋` with `ctr` the CTR value that very
draw returns — requested from `normal(0.005, 0.001)` exactly for the
literal query "shoulder surgery recovery time" and from
`normal(0.08, 0.03)` for all other queries (spelled out by `gscCtr`);
clicks is never negative; and no upper clamp is applied: some draws (here
a CTR of 2, which lies in the support of the normal distribution) give
`clicks > impressions`. -/
theorem gsc_clicks_formula :
    (∀ (numDays : ℕ) (draw : ℕ → String → String → GscDraw),
      ∀ row ∈ gsc_data numDays draw,
        ∃ day qp device, day < numDays ∧ qp ∈ GSC_QUERIES ∧
          row = mkGscRow day qp.1 qp.2 device (draw day qp.1 device) ∧
          row.clicks
            = max 0 ⌊(row.impressions : ℚ) * gscCtr row.query (draw day qp.1 device)⌋ ∧
          gscCtr row.query (draw day qp.1 device) =
            (if row.query = "shoulder surgery recovery time"
             then (draw day qp.1 device).ctrDraw (5/1000) (1/1000)
             else (draw day qp.1 device).ctrDraw (8/100) (3/100)) ∧
          0 ≤ row.clicks) ∧
    ∃ (numDays : ℕ) (draw : ℕ → String → String → GscDraw),
      ∃ row ∈ gsc_data numDays draw, (row.impressions : ℤ) < row.clicks := by
  constructor
  · intro numDays draw row hrow
    obtain ⟨day, qp, device, hday, hqp, rfl⟩ := mem_gsc_data hrow
    refine ⟨day, qp, device, hday, hqp, rfl, ?_, rfl, le_max_left _ _⟩
    simp only [mkGscRow]
    exact max_pyInt_eq_max_floor _
  · refine ⟨1, fun _ _ _ => hiCtrDraw,
      mkGscRow 0 "knee pain" "/blog/knee-pain-causes-and-treatments/" "MOBILE" hiCtrDraw,
      first_mem_gsc_data hiCtrDraw, ?_⟩
    have hcb : containsBest "knee pain" = false := by decide
    have hq : ¬("knee pain" = "shoulder surgery recovery time") := by decide
    simp only [mkGscRow, gscImpressions, gscCtr, hiCtrDraw, hcb, Bool.false_eq_true,
      if_false, if_neg hq, randint]
    norm_num [pyInt]

/-- C5 witness: the clicks formula instantiated at the first row generated
under the all-zero draw, with the generating draw `wGscDraw` itself. -/
theorem gsc_clicks_formula_witness :
    ∃ day qp device, day < 1 ∧ qp ∈ GSC_QUERIES ∧
      wGscRow = mkGscRow day qp.1 qp.2 device wGscDraw ∧
      wGscRow.clicks = max 0 ⌊(wGscRow.impressions : ℚ) * gscCtr wGscRow.query wGscDraw⌋ ∧
      gscCtr wGscRow.query wGscDraw =
        (if wGscRow.query = "shoulder surgery recovery time"
         then wGscDraw.ctrDraw (5/1000) (1/1000)
         else wGscDraw.ctrDraw (8/100) (3/100)) ∧
      0 ≤ wGscRow.clicks :=
  gsc_clicks_formula.1 1 (fun _ _ _ => wGscDraw) wGscRow (first_mem_gsc_data wGscDraw)

-- --- CLAIM C6 ---

/-- C6 counterexample: the code stores
`sum_position = int(avg_position * impressions)`, which truncates toward
zero, not `round(...)`. Under the draw `fracPosDraw` the first generated
row ("knee pain", MOBILE, day 0) has 50 impressions and an average-position
draw of 27/500, so the product is 2.7: the stored value is 2 while rounding
(under any rounding convention for halves; 2.7 is not a half) gives 3. -/
theorem gsc_sum_position_not_round :
    fracPosRow ∈ gsc_data 1 (fun _ _ _ => fracPosDraw) ∧
    fracPosRow.sum_position
      ≠ round (gscAvgPosition fracPosRow.query fracPosDraw * (fracPosRow.impressions : ℚ)) := by
  refine ⟨first_mem_gsc_data fracPosDraw, ?_⟩
  have hcb : containsBest "knee pain" = false := by decide
  simp only [fracPosRow, mkGscRow, gscImpressions, gscAvgPosition, fracPosDraw, hcb,
    Bool.false_eq_true, if_false, randint]
  norm_num [pyInt, round_eq]

/-- C6 amended: every generated GSC row is `mkGscRow` of the generating
draw `draw day query device`, and it stores
`sum_position = pyInt (avg_position * impressions)` — Python `int()`
truncation toward zero of the product, not rounding — with `avg_position`
the value that very draw returns, requested from `normal(3.5, 1.5)`
exactly for "best"-containing queries and from `normal(8, 4)` otherwise
(spelled out by `gscAvgPosition`). -/
theorem gsc_sum_position_trunc :
    ∀ (numDays : ℕ) (draw : ℕ → String → String → GscDraw),
      ∀ row ∈ gsc_data numDays draw,
        ∃ day qp device, day < numDays ∧ qp ∈ GSC_QUERIES ∧
          row = mkGscRow day qp.1 qp.2 device (draw day qp.1 device) ∧
          row.sum_position
            = pyInt (gscAvgPosition row.query (draw day qp.1 device) * (row.impressions : ℚ)) ∧
          gscAvgPosition row.query (draw day qp.1 device) =
            (if containsBest row.query then (draw day qp.1 device).posDraw (35/10) (15/10)
             else (draw day qp.1 device).posDraw 8 4) := by
  intro numDays draw row hrow
  obtain ⟨day, qp, device, hday, hqp, rfl⟩ := mem_gsc_data hrow
  exact ⟨day, qp, device, hday, hqp, rfl, rfl, rfl⟩

/-- C6 amended witness: the truncation formula instantiated at the first
row generated under the all-zero draw, with the generating draw `wGscDraw`
itself. -/
theorem gsc_sum_position_trunc_witness :
    ∃ day qp device, day < 1 ∧ qp ∈ GSC_QUERIES ∧
      wGscRow = mkGscRow day qp.1 qp.2 device wGscDraw ∧
      wGscRow.sum_position
        = pyInt (gscAvgPosition wGscRow.query wGscDraw * (wGscRow.impressions : ℚ)) ∧
      gscAvgPosition wGscRow.query wGscDraw =
        (if containsBest wGscRow.query then wGscDraw.posDraw (35/10) (15/10)
         else wGscDraw.posDraw 8 4) :=
  gsc_sum_position_trunc 1 (fun _ _ _ => wGscDraw) wGscRow (first_mem_gsc_data wGscDraw)

-- --- CLAIM C4 ---

theorem gsc_data_length (numDays : ℕ) (draw : ℕ → String → String → GscDraw) :
    (gsc_data numDays draw).length = numDays * 18 := by
  induction numDays with
  | zero => rfl
  | succ k ih =>
    rw [gsc_data, List.range_succ, List.flatMap_append]
    rw [show ((List.range k).flatMap fun day =>
        GSC_QUERIES.flatMap fun qp =>
          ["MOBILE", "DESKTOP"].map fun device =>
            mkGscRow day qp.1 qp.2 device (draw day qp.1 device)) = gsc_data k draw from rfl]
    simp only [List.length_append, ih, List.flatMap_cons, List.flatMap_nil, List.append_nil]
    simp [GSC_QUERIES]
    omega

theorem yt_data_length (numDays : ℕ) (draw : ℕ → String → YtDraw) :
    (yt_data numDays draw).length = numDays * 3 := by
  induction numDays with
  | zero => rfl
  | succ k ih =>
    rw [yt_data, List.range_succ, List.flatMap_append]
    rw [show ((List.range k).flatMap fun day =>
        YT_VIDEOS.map fun vm => mkYtRow day vm.1 vm.2 (draw day vm.1)) = yt_data k draw from rfl]
    simp only [List.length_append, ih, List.flatMap_cons, List.flatMap_nil, List.append_nil]
    simp [YT_VIDEOS]
    omega

theorem ga_sessions_data_length_bounds (numDays : ℕ) (nsRaw : ℕ → ℕ)
    (draw : ℕ → ℕ → SessionDraw) :
    numDays * 200 ≤ (ga_sessions_data numDays nsRaw draw).length ∧
      (ga_sessions_data numDays nsRaw draw).length ≤ numDays * 1000 := by
  induction numDays with
  | zero => exact ⟨Nat.le_refl _, Nat.zero_le _⟩
  | succ k ih =>
    rw [ga_sessions_data, List.range_succ, List.flatMap_append]
    rw [show ((List.range k).flatMap fun day =>
        (List.range (randint 200 1000 (nsRaw day))).map fun s =>
          mkSession day (draw day s)) = ga_sessions_data k nsRaw draw from rfl]
    have hlo : 200 ≤ randint 200 1000 (nsRaw k) := le_randint _ _ _
    have hhi : randint 200 1000 (nsRaw k) ≤ 1000 := randint_le (by norm_num)
    simp only [List.length_append, List.flatMap_cons, List.flatMap_nil,
      List.append_nil, List.length_map, List.length_range]
    constructor
    · have := ih.1
      omega
    · have := ih.2
      omega

/-- C4: for any `numDays`-day run, the GSC table has exactly
`numDays * |GSC_QUERIES| * 2` rows (one per day, query and device), the
YouTube table exactly `numDays * |YT_VIDEOS|` rows, and the GA table
between `numDays * 200` and `numDays * 1000` rows inclusive (each day
contributes `randint(200, 1000)` sessions). -/
theorem generation_row_counts (numDays : ℕ)
    (gdraw : ℕ → String → String → GscDraw) (ydraw : ℕ → String → YtDraw)
    (nsRaw : ℕ → ℕ) (sdraw : ℕ → ℕ → SessionDraw) :
    (gsc_data numDays gdraw).length = numDays * GSC_QUERIES.length * 2 ∧
    (yt_data numDays ydraw).length = numDays * YT_VIDEOS.length ∧
    numDays * 200 ≤ (ga_sessions_data numDays nsRaw sdraw).length ∧
    (ga_sessions_data numDays nsRaw sdraw).length ≤ numDays * 1000 := by
  refine ⟨?_, ?_, ga_sessions_data_length_bounds numDays nsRaw sdraw⟩
  · rw [gsc_data_length]
    simp [GSC_QUERIES]
    ring
  · rw [yt_data_length]
    simp [YT_VIDEOS]

-- --- CLAIM C3 ---

theorem mem_yt_data {numDays : ℕ} {draw : ℕ → String → YtDraw} {row : YtRow}
    (h : row ∈ yt_data numDays draw) :
    ∃ day vm, day < numDays ∧ vm ∈ YT_VIDEOS ∧
      row = mkYtRow day vm.1 vm.2 (draw day vm.1) := by
  simp only [yt_data, List.mem_flatMap, List.mem_map, List.mem_range] at h
  obtain ⟨day, hday, vm, hvm, rfl⟩ := h
  exact ⟨day, vm, hday, hvm, rfl⟩

theorem first_mem_yt_data (d : YtDraw) :
    mkYtRow 0 "yt_apollo_ortho_team_01"
        ⟨"Meet Our Orthopedic Team - Apollo Chennai", 180, 30⟩ d
      ∈ yt_data 1 fun _ _ => d := by
  refine List.mem_flatMap.mpr ⟨0, by simp, ?_⟩
  exact List.mem_map.mpr
    ⟨("yt_apollo_ortho_team_01", ⟨"Meet Our Orthopedic Team - Apollo Chennai", 180, 30⟩),
     by simp [YT_VIDEOS], rfl⟩

/-- C3: every entry of the fixed video catalog satisfies
`avg_view_sec ≤ duration_sec`, and consequently every generated YouTube
row satisfies `watch_time_msec ≤ potential_watch_time_msec`
(both are `views * seconds * 1000`). -/
theorem yt_watch_time_le_potential :
    (∀ vm ∈ YT_VIDEOS, vm.2.avg_view_sec ≤ vm.2.duration_sec) ∧
    ∀ (numDays : ℕ) (draw : ℕ → String → YtDraw),
      ∀ row ∈ yt_data numDays draw,
        row.watch_time_msec ≤ row.potential_watch_time_msec := by
  have hcat : ∀ vm ∈ YT_VIDEOS, vm.2.avg_view_sec ≤ vm.2.duration_sec := by
    intro vm hvm
    fin_cases hvm <;> norm_num
  refine ⟨hcat, ?_⟩
  intro numDays draw row hrow
  obtain ⟨day, vm, -, hvm, rfl⟩ := mem_yt_data hrow
  have h := hcat vm hvm
  simp only [mkYtRow]
  exact Nat.mul_le_mul_right 1000 (Nat.mul_le_mul_left _ h)

/-- C3 witness: the watch-time bound instantiated at the first row
generated under the all-zero draw. -/
theorem yt_watch_time_le_potential_witness :
    (mkYtRow 0 "yt_apollo_ortho_team_01"
        ⟨"Meet Our Orthopedic Team - Apollo Chennai", 180, 30⟩ wYtDraw).watch_time_msec
      ≤ (mkYtRow 0 "yt_apollo_ortho_team_01"
        ⟨"Meet Our Orthopedic Team - Apollo Chennai", 180, 30⟩ wYtDraw).potential_watch_time_msec :=
  yt_watch_time_le_potential.2 1 (fun _ _ => wYtDraw) _ (first_mem_yt_data wYtDraw)

-- --- GA SESSION LEMMAS ---

theorem morePageHits_length (d : SessionDraw) (r : ℕ) :
    ∀ i t : ℕ, (morePageHits d r i t).1.length = r := by
  induction r with
  | zero => intro i t; rfl
  | succ k ih => intro i t; simp [morePageHits, ih]

theorem morePageHits_map_number (d : SessionDraw) (r : ℕ) :
    ∀ i t : ℕ, (morePageHits d r i t).1.map Hit.hit_number = List.range' (i + 2) r := by
  induction r with
  | zero => intro i t; rfl
  | succ k ih =>
    intro i t
    simp only [morePageHits, List.map_cons, ih]
    rw [List.range'_succ]
    have h2 : i + 1 + 2 = i + 2 + 1 := by omega
    simp [mkPageHit, h2]

theorem morePageHits_chain (d : SessionDraw) (r : ℕ) :
    ∀ (i t : ℕ) (prev : Hit), prev.hit_time ≤ t →
      List.Chain (fun a b => a.hit_time ≤ b.hit_time) prev (morePageHits d r i t).1 := by
  induction r with
  | zero => intro i t prev _; exact List.Chain.nil
  | succ k ih =>
    intro i t prev h
    simp only [morePageHits]
    exact List.Chain.cons (le_trans h (Nat.le_add_right _ _)) (ih (i + 1) _ _ (le_refl _))

theorem morePageHits_chain_concat (d : SessionDraw) (ev : Hit) (r : ℕ) :
    ∀ (i t : ℕ) (prev : Hit), prev.hit_time ≤ t →
      (morePageHits d r i t).2 ≤ ev.hit_time →
      List.Chain (fun a b => a.hit_time ≤ b.hit_time) prev ((morePageHits d r i t).1 ++ [ev]) := by
  induction r with
  | zero =>
    intro i t prev h hev
    exact List.Chain.cons (le_trans h hev) List.Chain.nil
  | succ k ih =>
    intro i t prev h hev
    simp only [morePageHits] at hev ⊢
    exact List.Chain.cons (le_trans h (Nat.le_add_right _ _))
      (ih (i + 1) _ _ (le_refl _) hev)

theorem mem_ga_sessions_data {numDays : ℕ} {nsRaw : ℕ → ℕ}
    {draw : ℕ → ℕ → SessionDraw} {s : GaSession}
    (h : s ∈ ga_sessions_data numDays nsRaw draw) :
    ∃ day idx, day < numDays ∧ s = mkSession day (draw day idx) := by
  simp only [ga_sessions_data, List.mem_flatMap, List.mem_map, List.mem_range] at h
  obtain ⟨day, hday, idx, -, rfl⟩ := h
  exact ⟨day, idx, hday, rfl⟩

theorem first_mem_ga_sessions_data (d : SessionDraw) :
    mkSession 0 d ∈ ga_sessions_data 1 (fun _ => 0) fun _ _ => d := by
  refine List.mem_flatMap.mpr ⟨0, by simp, ?_⟩
  exact List.mem_map.mpr ⟨0, List.mem_range.mpr (by norm_num [randint]), rfl⟩

theorem mkSession_pageviews (day : ℕ) (d : SessionDraw) :
    (mkSession day d).totals.pageviews
      = ((mkSession day d).hits.filter fun h => h.type = HitType.PAGE).length := rfl

theorem mkSession_bounce_iff (day : ℕ) (d : SessionDraw) :
    (mkSession day d).totals.bounces = 1 ↔ (mkSession day d).hits.length = 1 := by
  by_cases hb : d.bounceRoll < 65/100
  · simp [mkSession, hb]
  · by_cases hc : d.convRoll < 2/10 <;>
      simp [mkSession, hb, hc, morePageHits_length, randint]

theorem range'_one_succ (n : ℕ) : List.range' 1 (n + 1) = 1 :: List.range' 2 n := by
  rw [List.range'_succ]

theorem range'_one_concat_two (n : ℕ) :
    List.range' 1 (n + 2) = (1 :: List.range' 2 n) ++ [n + 2] := by
  have h1 : List.range' 1 (n + 1 + 1) = List.range' 1 (n + 1) ++ [1 + (n + 1)] :=
    List.range'_1_concat 1 (n + 1)
  have h2 : 1 + (n + 1) = n + 2 := by omega
  rw [h2] at h1
  rw [show n + 2 = n + 1 + 1 from rfl, h1, range'_one_succ]

theorem hits_numbers_cons (n : ℕ) (l : List Hit) (h1 : Hit)
    (hl : l.map Hit.hit_number = List.range' 2 n) (hh : h1.hit_number = 1) :
    (h1 :: l).map Hit.hit_number = List.range' 1 (h1 :: l).length := by
  have hlen : l.length = n := by simpa using congrArg List.length hl
  simp only [List.map_cons, hh, hl, List.length_cons, hlen]
  exact (range'_one_succ n).symm

theorem hits_numbers_concat (n : ℕ) (l : List Hit) (h1 ev : Hit)
    (hl : l.map Hit.hit_number = List.range' 2 n) (hh : h1.hit_number = 1)
    (he : ev.hit_number = n + 2) :
    ((h1 :: l) ++ [ev]).map Hit.hit_number = List.range' 1 ((h1 :: l) ++ [ev]).length := by
  have hlen : l.length = n := by simpa using congrArg List.length hl
  simp only [List.map_append, List.map_cons, List.map_nil, hh, hl, he,
    List.length_append, List.length_cons, List.length_nil, hlen]
  exact (range'_one_concat_two n).symm

theorem mkSession_numbers (day : ℕ) (d : SessionDraw) :
    (mkSession day d).hits.map Hit.hit_number
      = List.range' 1 (mkSession day d).hits.length := by
  by_cases hb : d.bounceRoll < 65/100
  · simp [mkSession, hb, mkPageHit, List.range']
  · by_cases hc : d.convRoll < 2/10
    · simp only [mkSession, if_neg hb, if_pos hc]
      refine hits_numbers_concat _ _ _ _ (morePageHits_map_number d _ 0 _) rfl ?_
      simp [mkEventHit, mkPageHit, morePageHits_length]
    · simp only [mkSession, if_neg hb, if_neg hc]
      exact hits_numbers_cons _ _ _ (morePageHits_map_number d _ 0 _) rfl

theorem mkSession_times (day : ℕ) (d : SessionDraw) :
    List.Chain' (fun a b => a.hit_time ≤ b.hit_time) (mkSession day d).hits := by
  by_cases hb : d.bounceRoll < 65/100
  · simp only [mkSession, if_pos hb]
    exact List.chain'_singleton _
  · by_cases hc : d.convRoll < 2/10
    · simp only [mkSession, if_neg hb, if_pos hc]
      rw [List.cons_append]
      exact morePageHits_chain_concat d _ _ 0 _ _ (le_refl _) (Nat.le_add_right _ _)
    · simp only [mkSession, if_neg hb, if_neg hc]
      exact morePageHits_chain d _ 0 _ _ (le_refl _)

-- --- CLAIM C1 ---

/-- C1: in every generated GA session row, `totals.pageviews` equals the
number of hits of type PAGE in the session's hit list (under any outcome
of the random oracles). -/
theorem ga_pageviews_eq_page_hits :
    ∀ (numDays : ℕ) (nsRaw : ℕ → ℕ) (draw : ℕ → ℕ → SessionDraw),
      ∀ s ∈ ga_sessions_data numDays nsRaw draw,
        s.totals.pageviews = (s.hits.filter fun h => h.type = HitType.PAGE).length := by
  intro numDays nsRaw draw s hs
  obtain ⟨day, idx, -, rfl⟩ := mem_ga_sessions_data hs
  exact mkSession_pageviews day (draw day idx)

/-- C1 witness: the pageview count equality at the session generated from
the all-zero draw in a one-day, one-session run. -/
theorem ga_pageviews_eq_page_hits_witness :
    (mkSession 0 wSessionDraw).totals.pageviews
      = ((mkSession 0 wSessionDraw).hits.filter fun h => h.type = HitType.PAGE).length :=
  ga_pageviews_eq_page_hits 1 (fun _ => 0) (fun _ _ => wSessionDraw) _
    (first_mem_ga_sessions_data wSessionDraw)

-- --- CLAIM C2 ---

/-- C2: in every generated GA session row, `totals.bounces = 1` iff the
session has exactly one hit; a non-bounce session always appends at least
one extra hit (`randint(1, 4) ≥ 1`), so `bounces = 0` with a single hit is
impossible. -/
theorem ga_bounce_iff_single_hit :
    ∀ (numDays : ℕ) (nsRaw : ℕ → ℕ) (draw : ℕ → ℕ → SessionDraw),
      ∀ s ∈ ga_sessions_data numDays nsRaw draw,
        (s.totals.bounces = 1 ↔ s.hits.length = 1) := by
  intro numDays nsRaw draw s hs
  obtain ⟨day, idx, -, rfl⟩ := mem_ga_sessions_data hs
  exact mkSession_bounce_iff day (draw day idx)

/-- C2 witness: the bounce/single-hit equivalence at the session generated
from the engaged (non-bounce) draw. -/
theorem ga_bounce_iff_single_hit_witness :
    (mkSession 0 wEngagedDraw).totals.bounces = 1
      ↔ (mkSession 0 wEngagedDraw).hits.length = 1 :=
  ga_bounce_iff_single_hit 1 (fun _ => 0) (fun _ _ => wEngagedDraw) _
    (first_mem_ga_sessions_data wEngagedDraw)

-- --- CLAIM C7 ---

/-- C7: in every generated GA session row, the `hit_number` values are
exactly `1, 2, ..., len(hits)` in order with no gaps, and the `hit_time`
values are monotonically non-decreasing along the hit list. -/
theorem ga_hit_numbers_and_times :
    ∀ (numDays : ℕ) (nsRaw : ℕ → ℕ) (draw : ℕ → ℕ → SessionDraw),
      ∀ s ∈ ga_sessions_data numDays nsRaw draw,
        s.hits.map Hit.hit_number = List.range' 1 s.hits.length ∧
        List.Chain' (fun a b => a.hit_time ≤ b.hit_time) s.hits := by
  intro numDays nsRaw draw s hs
  obtain ⟨day, idx, -, rfl⟩ := mem_ga_sessions_data hs
  exact ⟨mkSession_numbers day (draw day idx), mkSession_times day (draw day idx)⟩

/-- C7 witness: hit numbering and time monotonicity at the session
generated from the engaged, converting draw. -/
theorem ga_hit_numbers_and_times_witness :
    (mkSession 0 wEngagedDraw).hits.map Hit.hit_number
        = List.range' 1 (mkSession 0 wEngagedDraw).hits.length ∧
      List.Chain' (fun a b => a.hit_time ≤ b.hit_time) (mkSession 0 wEngagedDraw).hits :=
  ga_hit_numbers_and_times 1 (fun _ => 0) (fun _ _ => wEngagedDraw) _
    (first_mem_ga_sessions_data wEngagedDraw)

-- --- CLAIM C8 ---

/-- C8 counterexample: `execute_bq_query` does NOT translate every failure
into a structured result. When the client is unavailable (`bq_client` is
`None`), the `raise Exception("BigQuery client is not available.")` at the
top of the function sits outside the try block, so the exception propagates
past the boundary instead of an `{error: message}` dictionary being
returned. -/
theorem execute_bq_query_raises_without_client :
    execute_bq_query none "SELECT 1" =
      BqOutcome.raised "BigQuery client is not available." := rfl

/-- C8 amended: with an available client, `execute_bq_query` never lets an
exception past its boundary — for every SQL text it returns either the
ordered row list or the structured `{error: message}` dictionary; only the
unavailable-client case raises. -/
theorem execute_bq_query_total_with_client :
    ∀ (run : String → Except String (List BqRow)) (query : String),
      (∃ rs, execute_bq_query (some run) query = BqOutcome.rows rs) ∨
      ∃ m, execute_bq_query (some run) query = BqOutcome.errorDict m := by
  intro run query
  cases hq : run query with
  | ok rs => exact Or.inl ⟨rs, by simp [execute_bq_query, hq]⟩
  | error e => exact Or.inr ⟨e, by simp [execute_bq_query, hq]⟩

-- --- CLAIM C9 ---

/-- C9: for every update request (a JSON object, possibly empty), each of
the four text fields present in the request replaces the corresponding
stored value, and each field omitted leaves the stored value unchanged —
including through the 400 branch taken for the empty object, which leaves
the whole store untouched. -/
theorem update_metadata_field_frame :
    ∀ (store : Metadata) (data : List (String × String)),
      ((∀ v, data.lookup "title" = some v →
          (update_metadata store (some data)).1.title = v) ∧
        (data.lookup "title" = none →
          (update_metadata store (some data)).1.title = store.title)) ∧
      ((∀ v, data.lookup "description" = some v →
          (update_metadata store (some data)).1.description = v) ∧
        (data.lookup "description" = none →
          (update_metadata store (some data)).1.description = store.description)) ∧
      ((∀ v, data.lookup "page_h1" = some v →
          (update_metadata store (some data)).1.page_h1 = v) ∧
        (data.lookup "page_h1" = none →
          (update_metadata store (some data)).1.page_h1 = store.page_h1)) ∧
      ((∀ v, data.lookup "page_paragraph" = some v →
          (update_metadata store (some data)).1.page_paragraph = v) ∧
        (data.lookup "page_paragraph" = none →
          (update_metadata store (some data)).1.page_paragraph = store.page_paragraph)) := by
  intro store data
  by_cases hd : data = []
  · subst hd
    simp [update_metadata, List.lookup]
  · simp only [update_metadata, if_neg hd]
    refine ⟨⟨?_, ?_⟩, ⟨?_, ?_⟩, ⟨?_, ?_⟩, ⟨?_, ?_⟩⟩
    · intro v hv; simp [dictGet, hv]
    · intro h; simp [dictGet, h]
    · intro v hv; simp [dictGet, hv]
    · intro h; simp [dictGet, h]
    · intro v hv; simp [dictGet, hv]
    · intro h; simp [dictGet, h]
    · intro v hv; simp [dictGet, hv]
    · intro h; simp [dictGet, h]

/-- C9 witness: a request carrying only `title` replaces the stored title
and leaves the stored description unchanged. -/
theorem update_metadata_field_frame_witness :
    (update_metadata WEBSITE_METADATA (some [("title", "New Title")])).1.title = "New Title" ∧
    (update_metadata WEBSITE_METADATA (some [("title", "New Title")])).1.description
      = WEBSITE_METADATA.description :=
  ⟨(update_metadata_field_frame WEBSITE_METADATA [("title", "New Title")]).1.1
      "New Title" rfl,
   (update_metadata_field_frame WEBSITE_METADATA [("title", "New Title")]).2.1.2 rfl⟩

-- --- CLAIM C10 ---

/-- C10: a POST whose JSON body is the empty object is falsy in Python
(`if not data`), so for any stored state it is rejected with the 400
"Missing JSON payload" error response and all four stored values are left
unchanged — it is not a successful no-op update. -/
theorem update_metadata_empty_object_rejected :
    ∀ store : Metadata,
      update_metadata store (some []) =
        (store, ApiResponse.badRequest "Missing JSON payload") := by
  intro store
  rfl
